import Mathlib

/-!
Verification of the alphavintage time-series module (timeseries.go).

The Go data model is shallowly embedded: a Go map[string]T is a list of
key/value pairs (with a no-duplicate-keys hypothesis where map semantics
matter), float64 prices are rationals, int64 volumes are integers, a
possibly-nil pointer is an Option, and a (value, error) return is an Except.
Go string comparison (bytewise lexicographic) is modelled by a code-point
lexicographic comparison, which agrees with Go on ASCII data such as the
date and timestamp keys.
-/

/-- Lexicographic comparison of char lists by code point; models Go's
bytewise string comparison on ASCII strings. -/
def charListLt : List Char → List Char → Bool
  | [], [] => false
  | [], _ :: _ => true
  | _ :: _, [] => false
  | a :: as, b :: bs =>
      if a.toNat < b.toNat then true
      else if b.toNat < a.toNat then false
      else charListLt as bs

/-- Go string less-than (s1 < s2), as used by the filters and sorts. -/
def strLtB (a b : String) : Bool := charListLt a.data b.data

/-- Go string less-or-equal, the negation of strLtB the other way. -/
def strLe (a b : String) : Prop := strLtB b a = false

instance : DecidableRel strLe := fun a b => instDecidableEqBool (strLtB b a) false

/-- Decimal value of a digit list (most significant first). -/
def digitsVal (l : List Char) : Nat := l.foldl (fun acc c => 10 * acc + (c.toNat - 48)) 0

/-- Recognizer for the leading float token accepted by fmt.Sscanf with verb
percent-f: optional leading spaces, optional sign, integer digits, optional
dot and fraction digits (exponent and special forms are not modelled; they
never occur in this repository's data). Returns (negative, integer part,
fraction part, fraction digit count), or none when no digits are present. -/
def floatToken (s : String) : Option (Bool × Nat × Nat × Nat) :=
  let cs := s.data.dropWhile (fun c => c = ' ')
  let signAndRest : Bool × List Char :=
    match cs with
    | '-' :: rest => (true, rest)
    | '+' :: rest => (false, rest)
    | rest => (false, rest)
  let neg := signAndRest.1
  let cs1 := signAndRest.2
  let ds := cs1.takeWhile Char.isDigit
  let cs2 := cs1.dropWhile Char.isDigit
  match cs2 with
  | '.' :: cs3 =>
      let fs := cs3.takeWhile Char.isDigit
      if ds.isEmpty && fs.isEmpty then none
      else some (neg, digitsVal ds, digitsVal fs, fs.length)
  | _ => if ds.isEmpty then none else some (neg, digitsVal ds, 0, 0)

/-- Model of parseFloat (timeseries.go): fmt.Sscanf with percent-f into a
float64, returning an error (none) when no float token is present; the
callers discard the error and then read the zero value. -/
def parseFloat (s : String) : Option ℚ :=
  match floatToken s with
  | none => none
  | some t => some ((if t.1 then (-1 : ℚ) else 1) * ((t.2.1 : ℚ) + (t.2.2.1 : ℚ) / (10 : ℚ) ^ t.2.2.2))

/-- Recognizer for the leading integer token accepted by fmt.Sscanf with
verb percent-d: optional leading spaces, optional sign, decimal digits. -/
def intToken (s : String) : Option (Bool × Nat) :=
  let cs := s.data.dropWhile (fun c => c = ' ')
  let signAndRest : Bool × List Char :=
    match cs with
    | '-' :: rest => (true, rest)
    | '+' :: rest => (false, rest)
    | rest => (false, rest)
  let ds := signAndRest.2.takeWhile Char.isDigit
  if ds.isEmpty then none else some (signAndRest.1, digitsVal ds)

/-- Model of parseInt (timeseries.go): fmt.Sscanf with percent-d into an
int64 (the int64 range is not modelled; no claim involves overflow). -/
def parseInt (s : String) : Option Int :=
  match intToken s with
  | none => none
  | some t => some ((if t.1 then (-1 : Int) else 1) * (t.2 : Int))

/-- Association-list lookup, modelling Go map indexing. -/
def lookupKey {α : Type} : List (String × α) → String → Option α
  | [], _ => none
  | (k, v) :: rest, key => if k = key then some v else lookupKey rest key

/-- Meta Data of a daily time series response (types.go). -/
structure TimeSeriesMetaData where
  Information : String
  Symbol : String
  LastRefreshed : String
  OutputSize : String
  TimeZone : String
deriving DecidableEq

/-- A single day's OHLCV record; all fields are strings, as in the JSON. -/
structure DailyDataPoint where
  Open : String
  High : String
  Low : String
  Close : String
  Volume : String
deriving DecidableEq

/-- Daily time series response: metadata plus a map from date to record,
the map embedded as a list of entries. -/
structure TimeSeriesDailyResponse where
  MetaData : TimeSeriesMetaData
  TimeSeries : List (String × DailyDataPoint)
deriving DecidableEq

/-- Meta Data of an intraday time series response (types.go). -/
structure IntradayMetaData where
  Information : String
  Symbol : String
  LastRefreshed : String
  Interval : String
  OutputSize : String
  TimeZone : String
deriving DecidableEq

/-- A single intraday OHLCV record. -/
structure IntradayDataPoint where
  Open : String
  High : String
  Low : String
  Close : String
  Volume : String
deriving DecidableEq

/-- Intraday time series response: metadata plus a map from timestamp
(YYYY-MM-DD HH:MM:SS) to record. -/
structure TimeSeriesIntradayResponse where
  MetaData : IntradayMetaData
  TimeSeries : List (String × IntradayDataPoint)
deriving DecidableEq

/-- Go zero value of DailyDataPoint: all fields empty. -/
def zeroDailyPoint : DailyDataPoint := ⟨"", "", "", "", ""⟩

/-- GetSortedDates (timeseries.go): all date keys sorted ascending. The Go
code uses an exchange sort; for a map's key list (no duplicates) any
comparison sort returns the same ascending enumeration, modelled here with
insertion sort under the Go string order. -/
def GetSortedDates (data : Option TimeSeriesDailyResponse) : List String :=
  match data with
  | none => []
  | some d => List.insertionSort strLe (d.TimeSeries.map Prod.fst)

/-- FilterIntradayByDate (timeseries.go): keep entries whose timestamp has
at least 10 characters and whose first 10 characters equal the date. Go
slices the first 10 bytes; String.take 10 agrees on ASCII timestamps. -/
def FilterIntradayByDate (data : Option TimeSeriesIntradayResponse) (date : String) :
    Option TimeSeriesIntradayResponse :=
  match data with
  | none => none
  | some d =>
      some { MetaData := d.MetaData,
             TimeSeries := d.TimeSeries.filter
               (fun tp => decide (10 ≤ tp.1.length) && (tp.1.take 10 == date)) }

/-- FilterDailyByDateRange (timeseries.go): keep entries within the
inclusive range; an empty-string bound is unbounded on that side. -/
def FilterDailyByDateRange (data : Option TimeSeriesDailyResponse) (startDate endDate : String) :
    Option TimeSeriesDailyResponse :=
  match data with
  | none => none
  | some d =>
      some { MetaData := d.MetaData,
             TimeSeries := d.TimeSeries.filter
               (fun kp => ((startDate == "") || !(strLtB kp.1 startDate)) &&
                          ((endDate == "") || !(strLtB endDate kp.1))) }

/-- FilterDailyLastNDays (timeseries.go): nil input or non-positive count
gives nil; otherwise keep the entries of the last min(days, count) sorted
dates. -/
def FilterDailyLastNDays (data : Option TimeSeriesDailyResponse) (days : Int) :
    Option TimeSeriesDailyResponse :=
  match data with
  | none => none
  | some d =>
      if days ≤ 0 then none
      else
        let dates := GetSortedDates (some d)
        if dates.length = 0 then none
        else
          let days2 := if days > (dates.length : Int) then (dates.length : Int) else days
          let recentDates := dates.drop (dates.length - days2.toNat)
          some { MetaData := d.MetaData,
                 TimeSeries := recentDates.filterMap
                   (fun date => (lookupKey d.TimeSeries date).map (fun p => (date, p))) }

/-- GetOldestDate (timeseries.go): first sorted date, or empty. -/
def GetOldestDate (data : Option TimeSeriesDailyResponse) : String :=
  match data with
  | none => ""
  | some d => if d.TimeSeries.length = 0 then "" else (GetSortedDates (some d)).headD ""

/-- GetMostRecentDate (timeseries.go): last sorted date, or empty. -/
def GetMostRecentDate (data : Option TimeSeriesDailyResponse) : String :=
  match data with
  | none => ""
  | some d => if d.TimeSeries.length = 0 then "" else (GetSortedDates (some d)).getLastD ""

/-- Summary record produced by GetDailyRangeSummary. -/
structure DailyRangeSummary where
  Symbol : String
  StartDate : String
  EndDate : String
  TradingDays : Nat
  PeriodOpen : ℚ
  PeriodHigh : ℚ
  PeriodLow : ℚ
  PeriodClose : ℚ
  TotalVolume : Int
  AvgVolume : Int
  PriceChange : ℚ
  PriceChangePct : ℚ
  HighDate : String
  LowDate : String
deriving DecidableEq

/-- One iteration of the date loop in GetDailyRangeSummary: look the date
up in the map, parse the fields (errors discarded, zero default), seed the
running fields on the first iteration, update the running extrema and their
dates, overwrite the close, accumulate the volume. -/
def dailyStep (ts : List (String × DailyDataPoint)) (acc : DailyRangeSummary × Bool)
    (date : String) : DailyRangeSummary × Bool :=
  let point := (lookupKey ts date).getD zeroDailyPoint
  let op := (parseFloat point.Open).getD 0
  let hi := (parseFloat point.High).getD 0
  let lo := (parseFloat point.Low).getD 0
  let cl := (parseFloat point.Close).getD 0
  let vol := (parseInt point.Volume).getD 0
  let s0 := acc.1
  let s1 := if acc.2 then
      { s0 with PeriodOpen := op, PeriodHigh := hi, PeriodLow := lo,
                HighDate := date, LowDate := date }
    else s0
  let s2 := if hi > s1.PeriodHigh then { s1 with PeriodHigh := hi, HighDate := date } else s1
  let s3 := if lo < s2.PeriodLow then { s2 with PeriodLow := lo, LowDate := date } else s2
  ({ s3 with PeriodClose := cl, TotalVolume := s3.TotalVolume + vol }, false)

/-- The summary record as initialized in GetDailyRangeSummary before the
date loop: identification fields from the metadata and the sorted dates,
every numeric field at the Go zero value. -/
def dailyInit (md : TimeSeriesMetaData) (dates : List String) : DailyRangeSummary :=
  { Symbol := md.Symbol, StartDate := dates.headD "", EndDate := dates.getLastD "",
    TradingDays := dates.length, PeriodOpen := 0, PeriodHigh := 0, PeriodLow := 0,
    PeriodClose := 0, TotalVolume := 0, AvgVolume := 0, PriceChange := 0,
    PriceChangePct := 0, HighDate := "", LowDate := "" }

/-- The statements after the date loop in GetDailyRangeSummary: average
volume when the day count is positive (Int.tdiv is Go's int64 division,
truncation toward zero), price change, and the percentage change guarded
against a zero period open. -/
def dailyFinish (r : DailyRangeSummary) : DailyRangeSummary :=
  let r1 := if r.TradingDays > 0 then
      { r with AvgVolume := Int.tdiv r.TotalVolume (r.TradingDays : Int) }
    else r
  let r2 := { r1 with PriceChange := r1.PeriodClose - r1.PeriodOpen }
  if r2.PeriodOpen ≠ 0 then
    { r2 with PriceChangePct := r2.PriceChange / r2.PeriodOpen * 100 }
  else r2

/-- GetDailyRangeSummary (timeseries.go): guard empty input, sort the
dates, fold the loop over them, then apply the closing statements. -/
def GetDailyRangeSummary (data : Option TimeSeriesDailyResponse) :
    Except String DailyRangeSummary :=
  match data with
  | none => Except.error "no data"
  | some d =>
      if d.TimeSeries.length = 0 then Except.error "no data"
      else
        let dates := GetSortedDates (some d)
        if dates.length = 0 then Except.error "no dates"
        else
          Except.ok (dailyFinish
            ((dates.foldl (dailyStep d.TimeSeries) (dailyInit d.MetaData dates, true)).1))

/-- Summary record produced by GetIntradaySummary. -/
structure IntradaySummary where
  Symbol : String
  Date : String
  Open : ℚ
  High : ℚ
  Low : ℚ
  Close : ℚ
  TotalVol : Int
  DataPoints : Nat
  Interval : String
deriving DecidableEq

/-- Ordering of intraday entries by timestamp, as used by the sort in
GetIntradaySummary. -/
def tpLe (a b : String × IntradayDataPoint) : Prop := strLe a.1 b.1

instance : DecidableRel tpLe := fun a b => instDecidableEqBool (strLtB b.1 a.1) false

/-- The timestamp sort in GetIntradaySummary (an exchange sort in Go,
modelled with insertion sort; identical output on duplicate-free keys). -/
def sortIntraday (l : List (String × IntradayDataPoint)) : List (String × IntradayDataPoint) :=
  List.insertionSort tpLe l

/-- One iteration of the point loop in GetIntradaySummary. -/
def intradayStep (acc : IntradaySummary × Bool) (tp : String × IntradayDataPoint) :
    IntradaySummary × Bool :=
  let p := tp.2
  let op := (parseFloat p.Open).getD 0
  let hi := (parseFloat p.High).getD 0
  let lo := (parseFloat p.Low).getD 0
  let cl := (parseFloat p.Close).getD 0
  let vol := (parseInt p.Volume).getD 0
  let s0 := acc.1
  let s1 := if acc.2 then { s0 with Open := op, High := hi, Low := lo } else s0
  let s2 := if hi > s1.High then { s1 with High := hi } else s1
  let s3 := if lo < s2.Low then { s2 with Low := lo } else s2
  ({ s3 with Close := cl, TotalVol := s3.TotalVol + vol }, false)

/-- GetIntradaySummary (timeseries.go): guard empty input, sort the points
by timestamp, take the date from the first 10 characters of the earliest
timestamp (Go slices the first 10 bytes and would panic on a shorter one;
String.take agrees whenever the timestamp has at least 10 characters), and
fold the loop. -/
def GetIntradaySummary (data : Option TimeSeriesIntradayResponse) :
    Except String IntradaySummary :=
  match data with
  | none => Except.error "no data"
  | some d =>
      if d.TimeSeries.length = 0 then Except.error "no data"
      else
        let points := sortIntraday d.TimeSeries
        let init : IntradaySummary :=
          { Symbol := d.MetaData.Symbol, Interval := d.MetaData.Interval,
            DataPoints := d.TimeSeries.length,
            Date := match points.head? with | some tp => tp.1.take 10 | none => "",
            Open := 0, High := 0, Low := 0, Close := 0, TotalVol := 0 }
        Except.ok (points.foldl intradayStep (init, true)).1

/-! Order toolkit for the Go string comparison. -/

theorem charListLt_irrefl (l : List Char) : charListLt l l = false := by
  induction l with
  | nil => rfl
  | cons a as ih => simp [charListLt, ih]

theorem charListLt_asymm : ∀ {x y : List Char}, charListLt x y = true → charListLt y x = false
  | [], [], h => by simp [charListLt] at h
  | [], _ :: _, _ => by simp [charListLt]
  | _ :: _, [], h => by simp [charListLt] at h
  | a :: as, b :: bs, h => by
      simp only [charListLt] at h ⊢
      split_ifs at h ⊢ with h1 h2 h3 <;> first | rfl | omega | exact charListLt_asymm h

theorem charListLt_le_trans : ∀ {x y z : List Char},
    charListLt y x = false → charListLt z y = false → charListLt z x = false
  | [], _, [], _, _ => by simp [charListLt]
  | [], _, _ :: _, _, _ => by simp [charListLt]
  | _ :: _, [], _, h1, _ => by simp [charListLt] at h1
  | _ :: _, _ :: _, [], _, h2 => by simp [charListLt] at h2
  | a :: as, b :: bs, c :: cs, h1, h2 => by
      simp only [charListLt] at h1 h2 ⊢
      split_ifs at h1 h2 ⊢ with h3 h4 h5 h6 h7 h8 <;>
        first | rfl | omega | exact charListLt_le_trans h1 h2

theorem charListLt_antisymm : ∀ {x y : List Char},
    charListLt x y = false → charListLt y x = false → x = y
  | [], [], _, _ => rfl
  | [], _ :: _, h1, _ => by simp [charListLt] at h1
  | _ :: _, [], _, h2 => by simp [charListLt] at h2
  | a :: as, b :: bs, h1, h2 => by
      simp only [charListLt] at h1 h2
      split_ifs at h1 h2 with h3 h4
      have hn : a.toNat = b.toNat := by omega
      have hab : a = b :=
        Char.eq_of_val_eq (UInt32.eq_of_val_eq (Fin.ext (by
          simpa [Char.toNat, UInt32.toNat] using hn)))
      rw [hab, charListLt_antisymm h1 h2]

theorem strLe_refl (a : String) : strLe a a := charListLt_irrefl a.data

theorem strLe_trans {a b c : String} (h1 : strLe a b) (h2 : strLe b c) : strLe a c :=
  charListLt_le_trans h1 h2

theorem strLe_total (a b : String) : strLe a b ∨ strLe b a := by
  rcases h : strLtB b a with hf | ht
  · exact Or.inl h
  · exact Or.inr (charListLt_asymm h)

theorem strLe_antisymm {a b : String} (h1 : strLe a b) (h2 : strLe b a) : a = b := by
  apply String.ext
  exact charListLt_antisymm h2 h1

theorem strLt_of_le_of_ne {a b : String} (h1 : strLe a b) (h2 : a ≠ b) : strLtB a b = true := by
  rcases h : strLtB a b with hf | ht
  · exact absurd (strLe_antisymm h1 h) h2
  · rfl

instance : IsTrans String strLe := ⟨fun _ _ _ => strLe_trans⟩

instance : IsTotal String strLe := ⟨strLe_total⟩

instance : IsTrans (String × IntradayDataPoint) tpLe := ⟨fun _ _ _ => strLe_trans⟩

instance : IsTotal (String × IntradayDataPoint) tpLe := ⟨fun a b => strLe_total a.1 b.1⟩

/-! Association-list lookup facts. -/

theorem lookupKey_eq_some_of_mem {α : Type} :
    ∀ {ts : List (String × α)}, (ts.map Prod.fst).Nodup →
      ∀ {k : String} {v : α}, (k, v) ∈ ts → lookupKey ts k = some v
  | [], _, _, _, h => by simp at h
  | (k0, v0) :: rest, hnd, k, v, h => by
      rcases List.mem_cons.mp h with h1 | h1
      · cases h1
        simp [lookupKey]
      · have hk : k0 ≠ k := by
          intro he
          have : k ∈ rest.map Prod.fst := List.mem_map_of_mem Prod.fst h1
          simp [List.nodup_cons] at hnd
          exact hnd.1 v (by simpa [← he] using h1)
        simp only [lookupKey, if_neg hk]
        exact lookupKey_eq_some_of_mem (by simp [List.nodup_cons] at hnd; exact hnd.2) h1

theorem mem_of_lookupKey_eq_some {α : Type} :
    ∀ {ts : List (String × α)} {k : String} {v : α},
      lookupKey ts k = some v → (k, v) ∈ ts
  | [], _, _, h => by simp [lookupKey] at h
  | (k0, v0) :: rest, k, v, h => by
      by_cases hk : k0 = k
      · subst hk
        simp [lookupKey] at h
        simp [h]
      · simp only [lookupKey, if_neg hk] at h
        exact List.mem_cons_of_mem _ (mem_of_lookupKey_eq_some h)

theorem lookupKey_isSome_of_mem {α : Type} :
    ∀ {ts : List (String × α)} {k : String}, k ∈ ts.map Prod.fst →
      (lookupKey ts k).isSome = true
  | [], _, h => by simp at h
  | (k0, v0) :: rest, k, h => by
      by_cases hk : k0 = k
      · simp [lookupKey, hk]
      · simp only [List.map_cons, List.mem_cons] at h
        rcases h with h | h
        · exact absurd h.symm hk
        · simp only [lookupKey, if_neg hk]
          exact lookupKey_isSome_of_mem h

/-- Looking up each key of a duplicate-free association list recovers the
values in order. -/
theorem map_lookupKey_eq {α β : Type} (f : α → β) (z : α) :
    ∀ {ts : List (String × α)}, (ts.map Prod.fst).Nodup →
      (ts.map Prod.fst).map (fun k => f ((lookupKey ts k).getD z)) =
        ts.map (fun kp => f kp.2)
  | [], _ => rfl
  | (k0, v0) :: rest, hnd => by
      have hnd' : (rest.map Prod.fst).Nodup := (List.nodup_cons.mp hnd).2
      have hk0 : k0 ∉ rest.map Prod.fst := (List.nodup_cons.mp hnd).1
      have hstep : (rest.map Prod.fst).map
            (fun k => f ((lookupKey ((k0, v0) :: rest) k).getD z)) =
          (rest.map Prod.fst).map (fun k => f ((lookupKey rest k).getD z)) := by
        apply List.map_congr_left
        intro k hk
        have hne : k0 ≠ k := fun he => hk0 (he ▸ hk)
        simp [lookupKey, hne]
      simp only [List.map_cons]
      rw [hstep, map_lookupKey_eq f z hnd']
      simp [lookupKey]

/-! Sorted-list facts. -/

theorem getLastD_mem {α : Type} (d : α) : ∀ (a : α) (l : List α), (a :: l).getLastD d ∈ a :: l
  | _, [] => by simp
  | a, b :: t => by
      rw [List.getLastD_cons]
      exact List.mem_cons_of_mem _ (getLastD_mem a b t)

theorem getLastD_map {α β : Type} (f : α → β) :
    ∀ (e : α) (l : List α), (l.map f).getLastD (f e) = f (l.getLastD e)
  | _, [] => rfl
  | _, a :: t => by
      simp only [List.map_cons, List.getLastD_cons]
      exact getLastD_map f a t

theorem getLastD_irrel {α : Type} (d e : α) : ∀ (a : α) (l : List α),
    (a :: l).getLastD d = (a :: l).getLastD e
  | _, [] => rfl
  | _, _ :: _ => by simp only [List.getLastD_cons]

theorem getLastD_map_ne {α β : Type} (f : α → β) (d : β) (e : α) (a : α) (l : List α) :
    ((a :: l).map f).getLastD d = f ((a :: l).getLastD e) := by
  have h1 : ((a :: l).map f).getLastD d = ((a :: l).map f).getLastD (f e) := by
    have := getLastD_irrel d (f e) (f a) (l.map f)
    simpa using this
  rw [h1, getLastD_map f e (a :: l)]

theorem sorted_headD_le {l : List String} (hs : l.Pairwise strLe) {k : String} (hk : k ∈ l) :
    strLe (l.headD "") k := by
  cases l with
  | nil => simp at hk
  | cons a t =>
      rcases List.mem_cons.mp hk with h | h
      · subst h; exact strLe_refl _
      · exact (List.pairwise_cons.mp hs).1 k h

theorem sorted_le_getLastD : ∀ {l : List String}, l.Pairwise strLe →
    ∀ {k : String}, k ∈ l → strLe k (l.getLastD "")
  | [], _, _, hk => by simp at hk
  | [a], _, k, hk => by
      have : k = a := by simpa using hk
      subst this
      exact strLe_refl _
  | a :: b :: t, hs, k, hk => by
      have hrw : (a :: b :: t).getLastD "" = (b :: t).getLastD "" := by
        rw [List.getLastD_cons]
        exact getLastD_irrel a "" b t
      rw [hrw]
      rcases List.mem_cons.mp hk with h | h
      · subst h
        have hlast : (b :: t).getLastD "" ∈ b :: t := getLastD_mem "" b t
        exact (List.pairwise_cons.mp hs).1 _ hlast
      · exact sorted_le_getLastD (List.pairwise_cons.mp hs).2 h

/-! Spec-side vocabulary for the daily range summary, following the
wording of the specification. -/

/-- The data point stored at a date (Go map indexing, zero value default). -/
def pointAt (ts : List (String × DailyDataPoint)) (d : String) : DailyDataPoint :=
  (lookupKey ts d).getD zeroDailyPoint

/-- Parsed open of a date, parse failure read as zero. -/
def dayOpen (ts : List (String × DailyDataPoint)) (d : String) : ℚ :=
  (parseFloat (pointAt ts d).Open).getD 0

/-- Parsed high of a date, parse failure read as zero. -/
def dayHigh (ts : List (String × DailyDataPoint)) (d : String) : ℚ :=
  (parseFloat (pointAt ts d).High).getD 0

/-- Parsed low of a date, parse failure read as zero. -/
def dayLow (ts : List (String × DailyDataPoint)) (d : String) : ℚ :=
  (parseFloat (pointAt ts d).Low).getD 0

/-- Parsed close of a date, parse failure read as zero. -/
def dayClose (ts : List (String × DailyDataPoint)) (d : String) : ℚ :=
  (parseFloat (pointAt ts d).Close).getD 0

/-- Parsed volume of a date, parse failure read as zero. -/
def dayVol (ts : List (String × DailyDataPoint)) (d : String) : Int :=
  (parseInt (pointAt ts d).Volume).getD 0

/-- Running maximum of dated values, keeping the date of the first
occurrence of the running extremum (a strictly-greater value is required
to displace it), per the specification's wording. -/
def specRunningMax (v : ℚ) (dv : String) : List (String × ℚ) → ℚ × String
  | [] => (v, dv)
  | p :: rest => if p.2 > v then specRunningMax p.2 p.1 rest else specRunningMax v dv rest

/-- Running minimum of dated values; ties keep the first occurrence. -/
def specRunningMin (v : ℚ) (dv : String) : List (String × ℚ) → ℚ × String
  | [] => (v, dv)
  | p :: rest => if p.2 < v then specRunningMin p.2 p.1 rest else specRunningMin v dv rest

/-- Running maximum of a dated list seeded from its first element. -/
def specRunningMaxList (l : List (String × ℚ)) : ℚ × String :=
  match l with
  | [] => (0, "")
  | p :: rest => specRunningMax p.2 p.1 rest

/-- Running minimum of a dated list seeded from its first element. -/
def specRunningMinList (l : List (String × ℚ)) : ℚ × String :=
  match l with
  | [] => (0, "")
  | p :: rest => specRunningMin p.2 p.1 rest

/-! Per-step and per-fold facts about the GetDailyRangeSummary loop. -/

theorem dailyStep_snd (ts : List (String × DailyDataPoint)) (acc : DailyRangeSummary × Bool)
    (date : String) : (dailyStep ts acc date).2 = false := rfl

theorem dailyStep_pair (ts : List (String × DailyDataPoint)) (acc : DailyRangeSummary × Bool)
    (date : String) : dailyStep ts acc date = ((dailyStep ts acc date).1, false) := by
  have h := dailyStep_snd ts acc date
  cases hps : dailyStep ts acc date with
  | mk a b => simp_all

theorem dailyStep_const (ts : List (String × DailyDataPoint)) (acc : DailyRangeSummary × Bool)
    (date : String) :
    (dailyStep ts acc date).1.Symbol = acc.1.Symbol ∧
    (dailyStep ts acc date).1.StartDate = acc.1.StartDate ∧
    (dailyStep ts acc date).1.EndDate = acc.1.EndDate ∧
    (dailyStep ts acc date).1.TradingDays = acc.1.TradingDays ∧
    (dailyStep ts acc date).1.PriceChange = acc.1.PriceChange ∧
    (dailyStep ts acc date).1.PriceChangePct = acc.1.PriceChangePct ∧
    (dailyStep ts acc date).1.AvgVolume = acc.1.AvgVolume := by
  simp only [dailyStep]
  split_ifs <;> simp

theorem dailyStep_vol (ts : List (String × DailyDataPoint)) (acc : DailyRangeSummary × Bool)
    (date : String) :
    (dailyStep ts acc date).1.TotalVolume = acc.1.TotalVolume + dayVol ts date := by
  simp only [dailyStep, dayVol, pointAt]
  split_ifs <;> simp

theorem dailyStep_close (ts : List (String × DailyDataPoint)) (acc : DailyRangeSummary × Bool)
    (date : String) :
    (dailyStep ts acc date).1.PeriodClose = dayClose ts date := by
  simp [dailyStep, dayClose, pointAt]

theorem dailyStep_false_open (ts : List (String × DailyDataPoint)) (s : DailyRangeSummary)
    (date : String) :
    (dailyStep ts (s, false) date).1.PeriodOpen = s.PeriodOpen := by
  simp only [dailyStep]
  split_ifs <;> simp_all

theorem dailyStep_false_high (ts : List (String × DailyDataPoint)) (s : DailyRangeSummary)
    (date : String) :
    ((dailyStep ts (s, false) date).1.PeriodHigh, (dailyStep ts (s, false) date).1.HighDate) =
      (if dayHigh ts date > s.PeriodHigh then (dayHigh ts date, date)
       else (s.PeriodHigh, s.HighDate)) := by
  simp only [dailyStep, dayHigh, pointAt]
  split_ifs <;> simp_all

theorem dailyStep_false_low (ts : List (String × DailyDataPoint)) (s : DailyRangeSummary)
    (date : String) :
    ((dailyStep ts (s, false) date).1.PeriodLow, (dailyStep ts (s, false) date).1.LowDate) =
      (if dayLow ts date < s.PeriodLow then (dayLow ts date, date)
       else (s.PeriodLow, s.LowDate)) := by
  simp only [dailyStep, dayLow, pointAt]
  split_ifs <;> simp_all

theorem dailyStep_first (ts : List (String × DailyDataPoint)) (s : DailyRangeSummary)
    (date : String) :
    dailyStep ts (s, true) date =
      ({ s with PeriodOpen := dayOpen ts date, PeriodHigh := dayHigh ts date,
                PeriodLow := dayLow ts date, HighDate := date, LowDate := date,
                PeriodClose := dayClose ts date,
                TotalVolume := s.TotalVolume + dayVol ts date }, false) := by
  simp only [dailyStep, dayOpen, dayHigh, dayLow, dayClose, dayVol, pointAt]
  simp [lt_irrefl]

theorem dailyFold_const (ts : List (String × DailyDataPoint)) :
    ∀ (dates : List String) (acc : DailyRangeSummary × Bool),
      (dates.foldl (dailyStep ts) acc).1.Symbol = acc.1.Symbol ∧
      (dates.foldl (dailyStep ts) acc).1.StartDate = acc.1.StartDate ∧
      (dates.foldl (dailyStep ts) acc).1.EndDate = acc.1.EndDate ∧
      (dates.foldl (dailyStep ts) acc).1.TradingDays = acc.1.TradingDays ∧
      (dates.foldl (dailyStep ts) acc).1.PriceChange = acc.1.PriceChange ∧
      (dates.foldl (dailyStep ts) acc).1.PriceChangePct = acc.1.PriceChangePct ∧
      (dates.foldl (dailyStep ts) acc).1.AvgVolume = acc.1.AvgVolume
  | [], acc => by simp
  | d :: rest, acc => by
      simp only [List.foldl_cons]
      obtain ⟨a1, a2, a3, a4, a5, a6, a7⟩ := dailyStep_const ts acc d
      obtain ⟨b1, b2, b3, b4, b5, b6, b7⟩ := dailyFold_const ts rest (dailyStep ts acc d)
      exact ⟨b1.trans a1, b2.trans a2, b3.trans a3, b4.trans a4, b5.trans a5,
             b6.trans a6, b7.trans a7⟩

theorem dailyFold_vol (ts : List (String × DailyDataPoint)) :
    ∀ (dates : List String) (acc : DailyRangeSummary × Bool),
      (dates.foldl (dailyStep ts) acc).1.TotalVolume =
        acc.1.TotalVolume + (dates.map (fun d => dayVol ts d)).sum
  | [], acc => by simp
  | d :: rest, acc => by
      simp only [List.foldl_cons, List.map_cons, List.sum_cons]
      rw [dailyFold_vol ts rest _, dailyStep_vol]
      omega

theorem dailyFold_close (ts : List (String × DailyDataPoint)) :
    ∀ (dates : List String) (acc : DailyRangeSummary × Bool),
      (dates.foldl (dailyStep ts) acc).1.PeriodClose =
        (dates.map (fun d => dayClose ts d)).getLastD acc.1.PeriodClose
  | [], acc => by simp
  | d :: rest, acc => by
      simp only [List.foldl_cons, List.map_cons, List.getLastD_cons]
      rw [dailyFold_close ts rest _, dailyStep_close]

theorem dailyFold_open (ts : List (String × DailyDataPoint)) :
    ∀ (dates : List String) (s : DailyRangeSummary),
      (dates.foldl (dailyStep ts) (s, false)).1.PeriodOpen = s.PeriodOpen
  | [], _ => rfl
  | d :: rest, s => by
      rw [List.foldl_cons, dailyStep_pair, dailyFold_open ts rest _, dailyStep_false_open]

theorem dailyFold_high (ts : List (String × DailyDataPoint)) :
    ∀ (dates : List String) (s : DailyRangeSummary),
      ((dates.foldl (dailyStep ts) (s, false)).1.PeriodHigh,
       (dates.foldl (dailyStep ts) (s, false)).1.HighDate) =
        specRunningMax s.PeriodHigh s.HighDate (dates.map (fun d => (d, dayHigh ts d)))
  | [], _ => rfl
  | d :: rest, s => by
      rw [List.foldl_cons, dailyStep_pair, dailyFold_high ts rest _]
      have hs := dailyStep_false_high ts s d
      simp only [List.map_cons, specRunningMax]
      by_cases h : dayHigh ts d > s.PeriodHigh
      · rw [if_pos h] at hs
        simp only [Prod.mk.injEq] at hs
        rw [hs.1, hs.2, if_pos h]
      · rw [if_neg h] at hs
        simp only [Prod.mk.injEq] at hs
        rw [hs.1, hs.2, if_neg h]

theorem dailyFold_low (ts : List (String × DailyDataPoint)) :
    ∀ (dates : List String) (s : DailyRangeSummary),
      ((dates.foldl (dailyStep ts) (s, false)).1.PeriodLow,
       (dates.foldl (dailyStep ts) (s, false)).1.LowDate) =
        specRunningMin s.PeriodLow s.LowDate (dates.map (fun d => (d, dayLow ts d)))
  | [], _ => rfl
  | d :: rest, s => by
      rw [List.foldl_cons, dailyStep_pair, dailyFold_low ts rest _]
      have hs := dailyStep_false_low ts s d
      simp only [List.map_cons, specRunningMin]
      by_cases h : dayLow ts d < s.PeriodLow
      · rw [if_pos h] at hs
        simp only [Prod.mk.injEq] at hs
        rw [hs.1, hs.2, if_pos h]
      · rw [if_neg h] at hs
        simp only [Prod.mk.injEq] at hs
        rw [hs.1, hs.2, if_neg h]

/-- Projections of the post-loop statements: every field other than
AvgVolume, PriceChange and PriceChangePct is untouched, and the three
computed fields take their documented values (the percentage stays at its
looped value when the period open is zero). -/
theorem dailyFinish_proj (F : DailyRangeSummary) (htd : 0 < F.TradingDays) :
    (dailyFinish F).Symbol = F.Symbol ∧
    (dailyFinish F).StartDate = F.StartDate ∧
    (dailyFinish F).EndDate = F.EndDate ∧
    (dailyFinish F).TradingDays = F.TradingDays ∧
    (dailyFinish F).PeriodOpen = F.PeriodOpen ∧
    (dailyFinish F).PeriodHigh = F.PeriodHigh ∧
    (dailyFinish F).PeriodLow = F.PeriodLow ∧
    (dailyFinish F).PeriodClose = F.PeriodClose ∧
    (dailyFinish F).TotalVolume = F.TotalVolume ∧
    (dailyFinish F).HighDate = F.HighDate ∧
    (dailyFinish F).LowDate = F.LowDate ∧
    (dailyFinish F).AvgVolume = Int.tdiv F.TotalVolume (F.TradingDays : Int) ∧
    (dailyFinish F).PriceChange = F.PeriodClose - F.PeriodOpen ∧
    (F.PeriodOpen ≠ 0 →
      (dailyFinish F).PriceChangePct = (F.PeriodClose - F.PeriodOpen) / F.PeriodOpen * 100) ∧
    (F.PeriodOpen = 0 → (dailyFinish F).PriceChangePct = F.PriceChangePct) := by
  unfold dailyFinish
  rw [if_pos htd]
  by_cases hop : F.PeriodOpen = 0
  · simp [hop]
  · simp [hop]

/-! Spec-side vocabulary and loop facts for the intraday summary. -/

/-- Go zero value of IntradayDataPoint. -/
def zeroIntradayPoint : IntradayDataPoint := ⟨"", "", "", "", ""⟩

/-- Placeholder entry used only as a default for head and last of a list
that is known to be non-empty. -/
def dummyTP : String × IntradayDataPoint := ("", zeroIntradayPoint)

/-- Parsed open of an intraday entry, parse failure read as zero. -/
def ptOpen (tp : String × IntradayDataPoint) : ℚ := (parseFloat tp.2.Open).getD 0

/-- Parsed high of an intraday entry, parse failure read as zero. -/
def ptHigh (tp : String × IntradayDataPoint) : ℚ := (parseFloat tp.2.High).getD 0

/-- Parsed low of an intraday entry, parse failure read as zero. -/
def ptLow (tp : String × IntradayDataPoint) : ℚ := (parseFloat tp.2.Low).getD 0

/-- Parsed close of an intraday entry, parse failure read as zero. -/
def ptClose (tp : String × IntradayDataPoint) : ℚ := (parseFloat tp.2.Close).getD 0

/-- Parsed volume of an intraday entry, parse failure read as zero. -/
def ptVol (tp : String × IntradayDataPoint) : Int := (parseInt tp.2.Volume).getD 0

/-- Running maximum of a list of values from a seed; a strictly greater
value is required to displace the current one. -/
def specRunningHigh (v : ℚ) : List ℚ → ℚ
  | [] => v
  | x :: rest => if x > v then specRunningHigh x rest else specRunningHigh v rest

/-- Running minimum of a list of values from a seed. -/
def specRunningLow (v : ℚ) : List ℚ → ℚ
  | [] => v
  | x :: rest => if x < v then specRunningLow x rest else specRunningLow v rest

/-- Running maximum seeded from the first element of the list. -/
def specRunningHighList (l : List ℚ) : ℚ :=
  match l with
  | [] => 0
  | x :: rest => specRunningHigh x rest

/-- Running minimum seeded from the first element of the list. -/
def specRunningLowList (l : List ℚ) : ℚ :=
  match l with
  | [] => 0
  | x :: rest => specRunningLow x rest

theorem intradayStep_snd (acc : IntradaySummary × Bool) (tp : String × IntradayDataPoint) :
    (intradayStep acc tp).2 = false := rfl

theorem intradayStep_pair (acc : IntradaySummary × Bool) (tp : String × IntradayDataPoint) :
    intradayStep acc tp = ((intradayStep acc tp).1, false) := by
  have h := intradayStep_snd acc tp
  cases hps : intradayStep acc tp with
  | mk a b => simp_all

theorem intradayStep_const (acc : IntradaySummary × Bool) (tp : String × IntradayDataPoint) :
    (intradayStep acc tp).1.Symbol = acc.1.Symbol ∧
    (intradayStep acc tp).1.Date = acc.1.Date ∧
    (intradayStep acc tp).1.DataPoints = acc.1.DataPoints ∧
    (intradayStep acc tp).1.Interval = acc.1.Interval := by
  simp only [intradayStep]
  split_ifs <;> simp

theorem intradayStep_vol (acc : IntradaySummary × Bool) (tp : String × IntradayDataPoint) :
    (intradayStep acc tp).1.TotalVol = acc.1.TotalVol + ptVol tp := by
  simp only [intradayStep, ptVol]
  split_ifs <;> simp

theorem intradayStep_close (acc : IntradaySummary × Bool) (tp : String × IntradayDataPoint) :
    (intradayStep acc tp).1.Close = ptClose tp := by
  simp [intradayStep, ptClose]

theorem intradayStep_false_open (s : IntradaySummary) (tp : String × IntradayDataPoint) :
    (intradayStep (s, false) tp).1.Open = s.Open := by
  simp only [intradayStep]
  split_ifs <;> simp_all

theorem intradayStep_false_high (s : IntradaySummary) (tp : String × IntradayDataPoint) :
    (intradayStep (s, false) tp).1.High = if ptHigh tp > s.High then ptHigh tp else s.High := by
  simp only [intradayStep, ptHigh]
  split_ifs <;> simp_all

theorem intradayStep_false_low (s : IntradaySummary) (tp : String × IntradayDataPoint) :
    (intradayStep (s, false) tp).1.Low = if ptLow tp < s.Low then ptLow tp else s.Low := by
  simp only [intradayStep, ptLow]
  split_ifs <;> simp_all

theorem intradayStep_first (s : IntradaySummary) (tp : String × IntradayDataPoint) :
    intradayStep (s, true) tp =
      ({ s with Open := ptOpen tp, High := ptHigh tp, Low := ptLow tp,
                Close := ptClose tp, TotalVol := s.TotalVol + ptVol tp }, false) := by
  simp only [intradayStep, ptOpen, ptHigh, ptLow, ptClose, ptVol]
  simp [lt_irrefl]

theorem intradayFold_const :
    ∀ (pts : List (String × IntradayDataPoint)) (acc : IntradaySummary × Bool),
      (pts.foldl intradayStep acc).1.Symbol = acc.1.Symbol ∧
      (pts.foldl intradayStep acc).1.Date = acc.1.Date ∧
      (pts.foldl intradayStep acc).1.DataPoints = acc.1.DataPoints ∧
      (pts.foldl intradayStep acc).1.Interval = acc.1.Interval
  | [], acc => by simp
  | tp :: rest, acc => by
      simp only [List.foldl_cons]
      obtain ⟨a1, a2, a3, a4⟩ := intradayStep_const acc tp
      obtain ⟨b1, b2, b3, b4⟩ := intradayFold_const rest (intradayStep acc tp)
      exact ⟨b1.trans a1, b2.trans a2, b3.trans a3, b4.trans a4⟩

theorem intradayFold_vol :
    ∀ (pts : List (String × IntradayDataPoint)) (acc : IntradaySummary × Bool),
      (pts.foldl intradayStep acc).1.TotalVol = acc.1.TotalVol + (pts.map ptVol).sum
  | [], acc => by simp
  | tp :: rest, acc => by
      simp only [List.foldl_cons, List.map_cons, List.sum_cons]
      rw [intradayFold_vol rest _, intradayStep_vol]
      omega

theorem intradayFold_close :
    ∀ (pts : List (String × IntradayDataPoint)) (acc : IntradaySummary × Bool),
      (pts.foldl intradayStep acc).1.Close = (pts.map ptClose).getLastD acc.1.Close
  | [], acc => by simp
  | tp :: rest, acc => by
      simp only [List.foldl_cons, List.map_cons, List.getLastD_cons]
      rw [intradayFold_close rest _, intradayStep_close]

theorem intradayFold_open :
    ∀ (pts : List (String × IntradayDataPoint)) (s : IntradaySummary),
      (pts.foldl intradayStep (s, false)).1.Open = s.Open
  | [], _ => rfl
  | tp :: rest, s => by
      rw [List.foldl_cons, intradayStep_pair, intradayFold_open rest _, intradayStep_false_open]

theorem intradayFold_high :
    ∀ (pts : List (String × IntradayDataPoint)) (s : IntradaySummary),
      (pts.foldl intradayStep (s, false)).1.High = specRunningHigh s.High (pts.map ptHigh)
  | [], _ => rfl
  | tp :: rest, s => by
      rw [List.foldl_cons, intradayStep_pair, intradayFold_high rest _, intradayStep_false_high]
      simp only [List.map_cons, specRunningHigh]
      by_cases h : ptHigh tp > s.High
      · rw [if_pos h, if_pos h]
      · rw [if_neg h, if_neg h]

theorem intradayFold_low :
    ∀ (pts : List (String × IntradayDataPoint)) (s : IntradaySummary),
      (pts.foldl intradayStep (s, false)).1.Low = specRunningLow s.Low (pts.map ptLow)
  | [], _ => rfl
  | tp :: rest, s => by
      rw [List.foldl_cons, intradayStep_pair, intradayFold_low rest _, intradayStep_false_low]
      simp only [List.map_cons, specRunningLow]
      by_cases h : ptLow tp < s.Low
      · rw [if_pos h, if_pos h]
      · rw [if_neg h, if_neg h]

/-! Concrete series from the specification's scenarios. -/

/-- Metadata for the daily scenario series. -/
def exampleDailyMeta : TimeSeriesMetaData :=
  { Information := "Daily Prices (open, high, low, close) and Volumes", Symbol := "TEST",
    LastRefreshed := "2024-01-03", OutputSize := "Compact", TimeZone := "US/Eastern" }

/-- The two-day scenario series (entries deliberately out of date order;
the map carries no order). -/
def exampleDailySeries : List (String × DailyDataPoint) :=
  [("2024-01-03", { Open := "104", High := "110", Low := "103", Close := "108", Volume := "1500" }),
   ("2024-01-02", { Open := "100", High := "105", Low := "99", Close := "104", Volume := "1000" })]

/-- The summary the scenario expects for the two-day series. -/
def exampleDailyRangeSummary : DailyRangeSummary :=
  { Symbol := "TEST", StartDate := "2024-01-02", EndDate := "2024-01-03", TradingDays := 2,
    PeriodOpen := 100, PeriodHigh := 110, PeriodLow := 99, PeriodClose := 108,
    TotalVolume := 2500, AvgVolume := 1250, PriceChange := 8, PriceChangePct := 8,
    HighDate := "2024-01-03", LowDate := "2024-01-02" }

theorem exampleDaily_sorted :
    GetSortedDates (some ⟨exampleDailyMeta, exampleDailySeries⟩) =
      ["2024-01-02", "2024-01-03"] := by decide

theorem exampleDaily_eval :
    GetDailyRangeSummary (some ⟨exampleDailyMeta, exampleDailySeries⟩) =
      Except.ok exampleDailyRangeSummary := by
  have pf100 : parseFloat "100" = some 100 := by
    have h : floatToken "100" = some (false, 100, 0, 0) := by decide
    simp [parseFloat, h]
  have pf104 : parseFloat "104" = some 104 := by
    have h : floatToken "104" = some (false, 104, 0, 0) := by decide
    simp [parseFloat, h]
  have pf105 : parseFloat "105" = some 105 := by
    have h : floatToken "105" = some (false, 105, 0, 0) := by decide
    simp [parseFloat, h]
  have pf99 : parseFloat "99" = some 99 := by
    have h : floatToken "99" = some (false, 99, 0, 0) := by decide
    simp [parseFloat, h]
  have pf110 : parseFloat "110" = some 110 := by
    have h : floatToken "110" = some (false, 110, 0, 0) := by decide
    simp [parseFloat, h]
  have pf103 : parseFloat "103" = some 103 := by
    have h : floatToken "103" = some (false, 103, 0, 0) := by decide
    simp [parseFloat, h]
  have pf108 : parseFloat "108" = some 108 := by
    have h : floatToken "108" = some (false, 108, 0, 0) := by decide
    simp [parseFloat, h]
  have pi1000 : parseInt "1000" = some 1000 := by decide
  have pi1500 : parseInt "1500" = some 1500 := by decide
  have htdiv : Int.tdiv 2500 2 = 1250 := by decide
  have hne : ¬ (("2024-01-03" : String) = "2024-01-02") := by decide
  simp only [GetDailyRangeSummary, exampleDaily_sorted]
  norm_num [exampleDailySeries, exampleDailyMeta, dailyInit, dailyStep, dailyFinish,
    lookupKey, zeroDailyPoint, hne, pf100, pf104, pf105, pf99, pf110, pf103, pf108,
    pi1000, pi1500, htdiv, exampleDailyRangeSummary]

/-- Metadata for the intraday scenario series. -/
def exampleIntradayMeta : IntradayMetaData :=
  { Information := "Intraday (5min) open, high, low, close prices and volume", Symbol := "TEST",
    LastRefreshed := "2024-06-10 09:35:00", Interval := "5min", OutputSize := "Compact",
    TimeZone := "US/Eastern" }

/-- The two-point intraday scenario series. -/
def exampleIntradaySeries : List (String × IntradayDataPoint) :=
  [("2024-06-10 09:35:00",
      { Open := "50.5", High := "52", Low := "50", Close := "51.5", Volume := "200" }),
   ("2024-06-10 09:30:00",
      { Open := "50", High := "51", Low := "49", Close := "50.5", Volume := "100" })]

/-- The summary the scenario expects for the two-point series. -/
def exampleIntradaySummary : IntradaySummary :=
  { Symbol := "TEST", Date := "2024-06-10", Open := 50, High := 52, Low := 49, Close := 51.5,
    TotalVol := 300, DataPoints := 2, Interval := "5min" }

theorem exampleIntraday_sorted :
    sortIntraday exampleIntradaySeries =
      [("2024-06-10 09:30:00",
          { Open := "50", High := "51", Low := "49", Close := "50.5", Volume := "100" }),
       ("2024-06-10 09:35:00",
          { Open := "50.5", High := "52", Low := "50", Close := "51.5", Volume := "200" })] := by
  decide

theorem exampleIntraday_eval :
    GetIntradaySummary (some ⟨exampleIntradayMeta, exampleIntradaySeries⟩) =
      Except.ok exampleIntradaySummary := by
  have pf50 : parseFloat "50" = some 50 := by
    have h : floatToken "50" = some (false, 50, 0, 0) := by decide
    simp [parseFloat, h]
  have pf51 : parseFloat "51" = some 51 := by
    have h : floatToken "51" = some (false, 51, 0, 0) := by decide
    simp [parseFloat, h]
  have pf49 : parseFloat "49" = some 49 := by
    have h : floatToken "49" = some (false, 49, 0, 0) := by decide
    simp [parseFloat, h]
  have pf52 : parseFloat "52" = some 52 := by
    have h : floatToken "52" = some (false, 52, 0, 0) := by decide
    simp [parseFloat, h]
  have pf505 : parseFloat "50.5" = some (101 / 2) := by
    have h : floatToken "50.5" = some (false, 50, 5, 1) := by decide
    simp [parseFloat, h]
    norm_num
  have pf515 : parseFloat "51.5" = some (103 / 2) := by
    have h : floatToken "51.5" = some (false, 51, 5, 1) := by decide
    simp [parseFloat, h]
    norm_num
  have pi100 : parseInt "100" = some 100 := by decide
  have pi200 : parseInt "200" = some 200 := by decide
  have htake : ("2024-06-10 09:30:00" : String).take 10 = "2024-06-10" := by decide
  simp only [GetIntradaySummary, exampleIntraday_sorted]
  norm_num [exampleIntradaySeries, exampleIntradayMeta, intradayStep, htake,
    pf50, pf51, pf49, pf52, pf505, pf515, pi100, pi200, exampleIntradaySummary]

/-- A one-day series whose OHLCV fields all fail to parse. -/
def exampleBadSeries : List (String × DailyDataPoint) :=
  [("2024-01-02", { Open := "N/A", High := "N/A", Low := "N/A", Close := "N/A", Volume := "N/A" })]

/-- The summary produced for the unparseable series: every numeric field is
zero, identification fields are still filled in. -/
def exampleBadSummary : DailyRangeSummary :=
  { Symbol := "TEST", StartDate := "2024-01-02", EndDate := "2024-01-02", TradingDays := 1,
    PeriodOpen := 0, PeriodHigh := 0, PeriodLow := 0, PeriodClose := 0, TotalVolume := 0,
    AvgVolume := 0, PriceChange := 0, PriceChangePct := 0,
    HighDate := "2024-01-02", LowDate := "2024-01-02" }

theorem exampleBad_eval :
    GetDailyRangeSummary (some ⟨exampleDailyMeta, exampleBadSeries⟩) =
      Except.ok exampleBadSummary := by
  have hsort : GetSortedDates (some ⟨exampleDailyMeta, exampleBadSeries⟩) = ["2024-01-02"] := by
    decide
  have pfNA : parseFloat "N/A" = none := by decide
  have piNA : parseInt "N/A" = none := by decide
  have htdiv : Int.tdiv 0 1 = 0 := by decide
  simp only [GetDailyRangeSummary, hsort]
  norm_num [exampleBadSeries, exampleDailyMeta, dailyInit, dailyStep, dailyFinish,
    lookupKey, zeroDailyPoint, pfNA, piNA, htdiv, exampleBadSummary]

/-! Success forms of the two summary functions on non-empty input. -/

theorem GetDailyRangeSummary_ok (md : TimeSeriesMetaData)
    (ts : List (String × DailyDataPoint)) (hne : ts ≠ []) :
    GetDailyRangeSummary (some ⟨md, ts⟩) =
      Except.ok (dailyFinish (((GetSortedDates (some ⟨md, ts⟩)).foldl (dailyStep ts)
        (dailyInit md (GetSortedDates (some ⟨md, ts⟩)), true)).1)) := by
  have hlen : ¬ (ts.length = 0) := by simpa using hne
  have hdlen : ¬ ((GetSortedDates (some ⟨md, ts⟩)).length = 0) := by
    have h := (List.perm_insertionSort strLe (ts.map Prod.fst)).length_eq
    simp only [GetSortedDates]
    rw [h, List.length_map]
    simpa using hne
  simp only [GetDailyRangeSummary, if_neg hlen, if_neg hdlen]

theorem GetIntradaySummary_ok (md : IntradayMetaData)
    (ts : List (String × IntradayDataPoint)) (hne : ts ≠ []) :
    GetIntradaySummary (some ⟨md, ts⟩) =
      Except.ok (((sortIntraday ts).foldl intradayStep
        ({ Symbol := md.Symbol, Interval := md.Interval, DataPoints := ts.length,
           Date := match (sortIntraday ts).head? with | some tp => tp.1.take 10 | none => "",
           Open := 0, High := 0, Low := 0, Close := 0, TotalVol := 0 }, true)).1) := by
  have hlen : ¬ (ts.length = 0) := by simpa using hne
  simp only [GetIntradaySummary, if_neg hlen, sortIntraday]

/-- C6: an empty or nil input series makes each summary function return the
"no data" error and no summary value; the embedding is a total function
into Except, so no panic and no successful zero-valued summary occurs. -/
theorem summaries_reject_empty (mdD : TimeSeriesMetaData) (mdI : IntradayMetaData) :
    GetDailyRangeSummary none = Except.error "no data" ∧
    GetDailyRangeSummary (some ⟨mdD, []⟩) = Except.error "no data" ∧
    GetIntradaySummary none = Except.error "no data" ∧
    GetIntradaySummary (some ⟨mdI, []⟩) = Except.error "no data" := by
  refine ⟨rfl, ?_, rfl, ?_⟩ <;> simp [GetDailyRangeSummary, GetIntradaySummary]

/-- C3: FilterDailyByDateRange keeps exactly the entries whose key is
within the inclusive bounds, an empty-string bound being unbounded on its
side, each carrying its original data point, and introduces no new keys; a
nil input gives nil. The embedding is a pure function, so the input series
is never modified. -/
theorem FilterDailyByDateRange_spec (d : TimeSeriesDailyResponse) (startDate endDate : String) :
    (∃ r, FilterDailyByDateRange (some d) startDate endDate = some r ∧
      ∀ kp : String × DailyDataPoint, kp ∈ r.TimeSeries ↔
        kp ∈ d.TimeSeries ∧ (startDate = "" ∨ strLe startDate kp.1) ∧
          (endDate = "" ∨ strLe kp.1 endDate)) ∧
    FilterDailyByDateRange none startDate endDate = none := by
  refine ⟨⟨_, rfl, ?_⟩, rfl⟩
  intro kp
  simp [FilterDailyByDateRange, List.mem_filter, strLe, Bool.or_eq_true, Bool.and_eq_true,
    Bool.not_eq_true', beq_iff_eq, and_assoc]

/-- C8: FilterIntradayByDate keeps exactly the entries whose timestamp has
at least 10 characters and starts with the given date, with unchanged data
points; a nil input gives nil. The embedding is pure, so the input is not
modified. -/
theorem FilterIntradayByDate_spec (d : TimeSeriesIntradayResponse) (date : String) :
    (∃ r, FilterIntradayByDate (some d) date = some r ∧
      ∀ tp : String × IntradayDataPoint, tp ∈ r.TimeSeries ↔
        tp ∈ d.TimeSeries ∧ 10 ≤ tp.1.length ∧ tp.1.take 10 = date) ∧
    FilterIntradayByDate none date = none := by
  refine ⟨⟨_, rfl, ?_⟩, rfl⟩
  intro tp
  simp [FilterIntradayByDate, List.mem_filter, Bool.and_eq_true, decide_eq_true_eq,
    beq_iff_eq, and_assoc]

/-! Small facts about the sorted date list of a series. -/

theorem sortedDates_length (md : TimeSeriesMetaData) (ts : List (String × DailyDataPoint)) :
    (GetSortedDates (some ⟨md, ts⟩)).length = ts.length := by
  simp only [GetSortedDates]
  rw [(List.perm_insertionSort strLe _).length_eq, List.length_map]

theorem sortedDates_mem (md : TimeSeriesMetaData) (ts : List (String × DailyDataPoint))
    (k : String) : k ∈ GetSortedDates (some ⟨md, ts⟩) ↔ k ∈ ts.map Prod.fst := by
  simp only [GetSortedDates]
  exact (List.perm_insertionSort strLe _).mem_iff

theorem sortedDates_sorted (md : TimeSeriesMetaData) (ts : List (String × DailyDataPoint)) :
    (GetSortedDates (some ⟨md, ts⟩)).Pairwise strLe := by
  simp only [GetSortedDates]
  exact List.sorted_insertionSort strLe _

theorem sortedDates_ne_nil (md : TimeSeriesMetaData) (ts : List (String × DailyDataPoint))
    (hne : ts ≠ []) : GetSortedDates (some ⟨md, ts⟩) ≠ [] := by
  intro h
  have := sortedDates_length md ts
  rw [h] at this
  simp only [List.length_nil] at this
  exact hne (List.length_eq_zero.mp this.symm)

/-- C7: in every successful daily range summary the price change is close
minus open, the percentage change is guarded against a zero period open
(a zero open leaves it at zero), and the average volume is the truncated
division of the total volume by the positive trading-day count. -/
theorem priceChange_guarded (md : TimeSeriesMetaData)
    (ts : List (String × DailyDataPoint)) (hne : ts ≠ []) :
    ∃ s, GetDailyRangeSummary (some ⟨md, ts⟩) = Except.ok s ∧
      s.PriceChange = s.PeriodClose - s.PeriodOpen ∧
      (s.PeriodOpen ≠ 0 → s.PriceChangePct = s.PriceChange / s.PeriodOpen * 100) ∧
      (s.PeriodOpen = 0 → s.PriceChangePct = 0) ∧
      0 < s.TradingDays ∧
      s.AvgVolume = Int.tdiv s.TotalVolume (s.TradingDays : Int) := by
  rw [GetDailyRangeSummary_ok md ts hne]
  set dates := GetSortedDates (some ⟨md, ts⟩) with hdates
  set F := ((dates.foldl (dailyStep ts) (dailyInit md dates, true)).1) with hF
  have htd0 : F.TradingDays = dates.length := by
    have hc := (dailyFold_const ts dates (dailyInit md dates, true)).2.2.2.1
    rw [hF, hc]
    simp [dailyInit]
  have htd : 0 < F.TradingDays := by
    rw [htd0, hdates, sortedDates_length md ts]
    have : ¬ (ts.length = 0) := by simpa using hne
    omega
  have hPct0 : F.PriceChangePct = 0 := by
    have hc := (dailyFold_const ts dates (dailyInit md dates, true)).2.2.2.2.2.1
    rw [hF, hc]
    simp [dailyInit]
  obtain ⟨p1, p2, p3, p4, p5, p6, p7, p8, p9, p10, p11, p12, p13, p14, p15⟩ :=
    dailyFinish_proj F htd
  refine ⟨_, rfl, ?_, ?_, ?_, ?_, ?_⟩
  · rw [p13, p8, p5]
  · intro hop
    have hop2 : F.PeriodOpen ≠ 0 := by rwa [p5] at hop
    rw [p14 hop2, p13, p5]
  · intro hop
    have hop2 : F.PeriodOpen = 0 := by rwa [p5] at hop
    rw [p15 hop2, hPct0]
  · rw [p4]; exact htd
  · rw [p12, p9, p4]

theorem priceChange_guarded_witness :
    ∃ s, GetDailyRangeSummary (some ⟨exampleDailyMeta, exampleDailySeries⟩) = Except.ok s ∧
      s.PriceChange = s.PeriodClose - s.PeriodOpen ∧
      (s.PeriodOpen ≠ 0 → s.PriceChangePct = s.PriceChange / s.PeriodOpen * 100) ∧
      (s.PeriodOpen = 0 → s.PriceChangePct = 0) ∧
      0 < s.TradingDays ∧
      s.AvgVolume = Int.tdiv s.TotalVolume (s.TradingDays : Int) :=
  priceChange_guarded exampleDailyMeta exampleDailySeries (by decide)

/-- C9: a failed numeric parse of an OHLCV field is read as zero and never
fails the record or the summary: on any non-empty series both summary
functions succeed, the parse of an unparseable field is an error, and the
all-unparseable one-day series still yields a successful summary whose
numeric fields are all zero. -/
theorem parse_failures_default_zero (md : TimeSeriesMetaData) (mdI : IntradayMetaData)
    (ts : List (String × DailyDataPoint)) (its : List (String × IntradayDataPoint))
    (hne : ts ≠ []) (hine : its ≠ []) :
    (∃ s, GetDailyRangeSummary (some ⟨md, ts⟩) = Except.ok s) ∧
    (∃ s, GetIntradaySummary (some ⟨mdI, its⟩) = Except.ok s) ∧
    parseFloat "N/A" = none ∧ parseInt "N/A" = none ∧
    GetDailyRangeSummary (some ⟨exampleDailyMeta, exampleBadSeries⟩) =
      Except.ok exampleBadSummary :=
  ⟨⟨_, GetDailyRangeSummary_ok md ts hne⟩, ⟨_, GetIntradaySummary_ok mdI its hine⟩,
    by decide, by decide, exampleBad_eval⟩

theorem parse_failures_default_zero_witness :
    (∃ s, GetDailyRangeSummary (some ⟨exampleDailyMeta, exampleBadSeries⟩) = Except.ok s) ∧
    (∃ s, GetIntradaySummary (some ⟨exampleIntradayMeta, exampleIntradaySeries⟩) =
      Except.ok s) ∧
    parseFloat "N/A" = none ∧ parseInt "N/A" = none ∧
    GetDailyRangeSummary (some ⟨exampleDailyMeta, exampleBadSeries⟩) =
      Except.ok exampleBadSummary :=
  parse_failures_default_zero exampleDailyMeta exampleIntradayMeta exampleBadSeries
    exampleIntradaySeries (by decide) (by decide)

/-- C10: every filter copies the input's metadata unchanged into its
non-nil result; filtering only changes the time series map. -/
theorem filters_preserve_metadata (d : TimeSeriesDailyResponse)
    (di : TimeSeriesIntradayResponse) (startDate endDate date : String) (days : Int) :
    (∃ r, FilterDailyByDateRange (some d) startDate endDate = some r ∧
      r.MetaData = d.MetaData) ∧
    (0 < days → d.TimeSeries ≠ [] →
      ∃ r, FilterDailyLastNDays (some d) days = some r ∧ r.MetaData = d.MetaData) ∧
    (∃ r, FilterIntradayByDate (some di) date = some r ∧ r.MetaData = di.MetaData) := by
  refine ⟨⟨_, rfl, rfl⟩, ?_, ⟨_, rfl, rfl⟩⟩
  intro hpos hne
  have h1 : ¬ (days ≤ 0) := by omega
  have h2 : ¬ ((GetSortedDates (some d)).length = 0) := by
    simp only [GetSortedDates]
    rw [(List.perm_insertionSort strLe _).length_eq, List.length_map]
    simpa using hne
  simp only [FilterDailyLastNDays, if_neg h1, if_neg h2]
  exact ⟨_, rfl, rfl⟩

theorem filters_preserve_metadata_witness :
    ∃ r, FilterDailyLastNDays (some ⟨exampleDailyMeta, exampleDailySeries⟩) 1 = some r ∧
      r.MetaData = (⟨exampleDailyMeta, exampleDailySeries⟩ : TimeSeriesDailyResponse).MetaData :=
  (filters_preserve_metadata ⟨exampleDailyMeta, exampleDailySeries⟩
    ⟨exampleIntradayMeta, exampleIntradaySeries⟩ "" "" "2024-06-10" 1).2.1
    (by decide) (by decide)

/-- C5: summarizing a non-empty daily series gives the same result as
summarizing the series filtered to its own date span (its oldest and most
recent dates). -/
theorem rangeSummary_idempotent_on_own_span (md : TimeSeriesMetaData)
    (ts : List (String × DailyDataPoint)) (hne : ts ≠ []) :
    GetDailyRangeSummary (some ⟨md, ts⟩) =
      GetDailyRangeSummary (FilterDailyByDateRange (some ⟨md, ts⟩)
        (GetOldestDate (some ⟨md, ts⟩)) (GetMostRecentDate (some ⟨md, ts⟩))) := by
  have hlen : ¬ (ts.length = 0) := by simpa using hne
  have hsorted := sortedDates_sorted md ts
  have ha : GetOldestDate (some ⟨md, ts⟩) = (GetSortedDates (some ⟨md, ts⟩)).headD "" := by
    simp only [GetOldestDate, if_neg hlen]
  have hb : GetMostRecentDate (some ⟨md, ts⟩) =
      (GetSortedDates (some ⟨md, ts⟩)).getLastD "" := by
    simp only [GetMostRecentDate, if_neg hlen]
  have hall : ∀ kp ∈ ts,
      (((GetOldestDate (some ⟨md, ts⟩) == "") ||
        !(strLtB kp.1 (GetOldestDate (some ⟨md, ts⟩)))) &&
       ((GetMostRecentDate (some ⟨md, ts⟩) == "") ||
        !(strLtB (GetMostRecentDate (some ⟨md, ts⟩)) kp.1))) = true := by
    intro kp hkp
    have hk : kp.1 ∈ GetSortedDates (some ⟨md, ts⟩) :=
      (sortedDates_mem md ts kp.1).mpr (List.mem_map_of_mem Prod.fst hkp)
    have h1 : strLtB kp.1 (GetOldestDate (some ⟨md, ts⟩)) = false := by
      rw [ha]
      exact sorted_headD_le hsorted hk
    have h2 : strLtB (GetMostRecentDate (some ⟨md, ts⟩)) kp.1 = false := by
      rw [hb]
      exact sorted_le_getLastD hsorted hk
    simp [h1, h2]
  have hfilter : FilterDailyByDateRange (some ⟨md, ts⟩) (GetOldestDate (some ⟨md, ts⟩))
      (GetMostRecentDate (some ⟨md, ts⟩)) = some ⟨md, ts⟩ := by
    simp only [FilterDailyByDateRange]
    rw [List.filter_eq_self.mpr hall]
  rw [hfilter]

theorem rangeSummary_idempotent_witness :
    GetDailyRangeSummary (some ⟨exampleDailyMeta, exampleDailySeries⟩) =
      GetDailyRangeSummary (FilterDailyByDateRange
        (some ⟨exampleDailyMeta, exampleDailySeries⟩)
        (GetOldestDate (some ⟨exampleDailyMeta, exampleDailySeries⟩))
        (GetMostRecentDate (some ⟨exampleDailyMeta, exampleDailySeries⟩))) :=
  rangeSummary_idempotent_on_own_span exampleDailyMeta exampleDailySeries (by decide)

/-- C2: for a non-empty intraday series (with well-formed timestamps of at
least 10 characters, where the Go byte slice and String.take agree), the
summary sorts the timestamps ascending, initializes open, high and low from
the earliest point, keeps high and low as running extrema, takes the close
from the latest point, sums the volumes, counts the entries, and takes the
date from the first 10 characters of the earliest timestamp; the
specification's two-point scenario evaluates as stated. -/
theorem GetIntradaySummary_spec (md : IntradayMetaData)
    (ts : List (String × IntradayDataPoint)) (hne : ts ≠ [])
    (_h10 : ∀ tp ∈ ts, 10 ≤ tp.1.length) :
    ∃ s, GetIntradaySummary (some ⟨md, ts⟩) = Except.ok s ∧
      (sortIntraday ts).Pairwise tpLe ∧
      (sortIntraday ts).Perm ts ∧
      s.Open = ptOpen ((sortIntraday ts).headD dummyTP) ∧
      s.Date = ((sortIntraday ts).headD dummyTP).1.take 10 ∧
      s.Close = ptClose ((sortIntraday ts).getLastD dummyTP) ∧
      s.High = specRunningHighList ((sortIntraday ts).map ptHigh) ∧
      s.Low = specRunningLowList ((sortIntraday ts).map ptLow) ∧
      s.TotalVol = (ts.map (fun tp => (parseInt tp.2.Volume).getD 0)).sum ∧
      s.DataPoints = ts.length ∧
      s.Symbol = md.Symbol ∧
      s.Interval = md.Interval ∧
      GetIntradaySummary (some ⟨exampleIntradayMeta, exampleIntradaySeries⟩) =
        Except.ok exampleIntradaySummary := by
  have hperm : (sortIntraday ts).Perm ts := List.perm_insertionSort tpLe ts
  have hsorted : (sortIntraday ts).Pairwise tpLe := List.sorted_insertionSort tpLe ts
  have hptsne : sortIntraday ts ≠ [] := fun h => hne ((h ▸ hperm).symm.eq_nil)
  obtain ⟨p0, rest, hcons⟩ := List.exists_cons_of_ne_nil hptsne
  rw [GetIntradaySummary_ok md ts hne]
  refine ⟨_, rfl, hsorted, hperm, ?_, ?_, ?_, ?_, ?_, ?_, ?_, ?_, ?_, exampleIntraday_eval⟩
  · rw [hcons, List.foldl_cons, intradayStep_first, intradayFold_open]
    simp
  · rw [hcons, (intradayFold_const (p0 :: rest) _).2.1]
    simp
  · rw [hcons, intradayFold_close]
    exact getLastD_map_ne ptClose _ dummyTP p0 rest
  · rw [hcons, List.foldl_cons, intradayStep_first, intradayFold_high]
    simp [specRunningHighList]
  · rw [hcons, List.foldl_cons, intradayStep_first, intradayFold_low]
    simp [specRunningLowList]
  · rw [intradayFold_vol, (hperm.map ptVol).sum_eq,
      show List.map ptVol ts = List.map (fun tp => (parseInt tp.2.Volume).getD 0) ts from rfl]
    simp
  · rw [(intradayFold_const (sortIntraday ts) _).2.2.1]
  · rw [(intradayFold_const (sortIntraday ts) _).1]
  · rw [(intradayFold_const (sortIntraday ts) _).2.2.2]

theorem GetIntradaySummary_spec_witness :
    ∃ s, GetIntradaySummary (some ⟨exampleIntradayMeta, exampleIntradaySeries⟩) =
        Except.ok s ∧
      (sortIntraday exampleIntradaySeries).Pairwise tpLe ∧
      (sortIntraday exampleIntradaySeries).Perm exampleIntradaySeries ∧
      s.Open = ptOpen ((sortIntraday exampleIntradaySeries).headD dummyTP) ∧
      s.Date = ((sortIntraday exampleIntradaySeries).headD dummyTP).1.take 10 ∧
      s.Close = ptClose ((sortIntraday exampleIntradaySeries).getLastD dummyTP) ∧
      s.High = specRunningHighList ((sortIntraday exampleIntradaySeries).map ptHigh) ∧
      s.Low = specRunningLowList ((sortIntraday exampleIntradaySeries).map ptLow) ∧
      s.TotalVol = (exampleIntradaySeries.map (fun tp => (parseInt tp.2.Volume).getD 0)).sum ∧
      s.DataPoints = exampleIntradaySeries.length ∧
      s.Symbol = exampleIntradayMeta.Symbol ∧
      s.Interval = exampleIntradayMeta.Interval ∧
      GetIntradaySummary (some ⟨exampleIntradayMeta, exampleIntradaySeries⟩) =
        Except.ok exampleIntradaySummary :=
  GetIntradaySummary_spec exampleIntradayMeta exampleIntradaySeries (by decide) (by decide)

/-- C1: for a non-empty daily series with distinct date keys, the range
summary takes start and end from the lexicographically smallest and largest
keys, period open and close from the earliest and latest dates, period high
and low with their dates as running extrema over the ascending dates (ties
keeping the first occurrence), total volume as the sum of the parsed
volumes, and average volume as the truncated integer division of the total
by the trading-day count; the specification's two-day scenario evaluates to
exactly the stated summary. -/
theorem GetDailyRangeSummary_spec (md : TimeSeriesMetaData)
    (ts : List (String × DailyDataPoint)) (hne : ts ≠ [])
    (hnd : (ts.map Prod.fst).Nodup) :
    ∃ s, GetDailyRangeSummary (some ⟨md, ts⟩) = Except.ok s ∧
      (GetSortedDates (some ⟨md, ts⟩)).Pairwise strLe ∧
      (GetSortedDates (some ⟨md, ts⟩)).Perm (ts.map Prod.fst) ∧
      s.StartDate ∈ ts.map Prod.fst ∧
      (∀ k ∈ ts.map Prod.fst, strLe s.StartDate k) ∧
      s.EndDate ∈ ts.map Prod.fst ∧
      (∀ k ∈ ts.map Prod.fst, strLe k s.EndDate) ∧
      s.PeriodOpen = dayOpen ts s.StartDate ∧
      s.PeriodClose = dayClose ts s.EndDate ∧
      (s.PeriodHigh, s.HighDate) =
        specRunningMaxList ((GetSortedDates (some ⟨md, ts⟩)).map (fun d => (d, dayHigh ts d))) ∧
      (s.PeriodLow, s.LowDate) =
        specRunningMinList ((GetSortedDates (some ⟨md, ts⟩)).map (fun d => (d, dayLow ts d))) ∧
      s.TotalVolume = (ts.map (fun kp => (parseInt kp.2.Volume).getD 0)).sum ∧
      s.TradingDays = ts.length ∧
      s.AvgVolume = Int.tdiv s.TotalVolume (ts.length : Int) ∧
      s.Symbol = md.Symbol ∧
      GetDailyRangeSummary (some ⟨exampleDailyMeta, exampleDailySeries⟩) =
        Except.ok exampleDailyRangeSummary := by
  have hsorted := sortedDates_sorted md ts
  have hperm : (GetSortedDates (some ⟨md, ts⟩)).Perm (ts.map Prod.fst) := by
    simp only [GetSortedDates]
    exact List.perm_insertionSort strLe _
  have hdne : GetSortedDates (some ⟨md, ts⟩) ≠ [] := sortedDates_ne_nil md ts hne
  obtain ⟨d0, rest, hcons⟩ := List.exists_cons_of_ne_nil hdne
  have hdl : (GetSortedDates (some ⟨md, ts⟩)).length = ts.length := sortedDates_length md ts
  rw [GetDailyRangeSummary_ok md ts hne]
  set dates := GetSortedDates (some ⟨md, ts⟩) with hdates
  set F := ((dates.foldl (dailyStep ts) (dailyInit md dates, true)).1) with hF
  have htd0 : F.TradingDays = dates.length := by
    rw [hF, (dailyFold_const ts dates (dailyInit md dates, true)).2.2.2.1]
    simp [dailyInit]
  have htd : 0 < F.TradingDays := by
    rw [htd0, hdl]
    have h0 : ¬ (ts.length = 0) := by simpa using hne
    omega
  have hStart : F.StartDate = dates.headD "" := by
    rw [hF, (dailyFold_const ts dates (dailyInit md dates, true)).2.1]
    simp [dailyInit]
  have hEnd : F.EndDate = dates.getLastD "" := by
    rw [hF, (dailyFold_const ts dates (dailyInit md dates, true)).2.2.1]
    simp [dailyInit]
  have hOpen : F.PeriodOpen = dayOpen ts d0 := by
    rw [hF, hcons, List.foldl_cons, dailyStep_first, dailyFold_open]
  have hClose : F.PeriodClose = dayClose ts (dates.getLastD "") := by
    rw [hF, dailyFold_close, hcons]
    exact getLastD_map_ne (fun d => dayClose ts d) _ "" d0 rest
  have hHigh : (F.PeriodHigh, F.HighDate) =
      specRunningMaxList (dates.map (fun d => (d, dayHigh ts d))) := by
    rw [hF, hcons, List.foldl_cons, dailyStep_first, dailyFold_high]
    simp [specRunningMaxList]
  have hLow : (F.PeriodLow, F.LowDate) =
      specRunningMinList (dates.map (fun d => (d, dayLow ts d))) := by
    rw [hF, hcons, List.foldl_cons, dailyStep_first, dailyFold_low]
    simp [specRunningMinList]
  have hVol : F.TotalVolume = (ts.map (fun kp => (parseInt kp.2.Volume).getD 0)).sum := by
    rw [hF, dailyFold_vol]
    have h0 : (dailyInit md dates, true).1.TotalVolume = 0 := by simp [dailyInit]
    rw [h0, zero_add, (hperm.map (fun d => dayVol ts d)).sum_eq]
    congr 1
    exact map_lookupKey_eq (fun p => (parseInt p.Volume).getD 0) zeroDailyPoint hnd
  have hlast_mem : dates.getLastD "" ∈ dates := by
    rw [hcons]
    exact getLastD_mem "" d0 rest
  obtain ⟨p1, p2, p3, p4, p5, p6, p7, p8, p9, p10, p11, p12, p13, p14, p15⟩ :=
    dailyFinish_proj F htd
  refine ⟨_, rfl, hsorted, hperm, ?_, ?_, ?_, ?_, ?_, ?_, ?_, ?_, ?_, ?_, ?_, ?_,
    exampleDaily_eval⟩
  · rw [p2, hStart]
    exact hperm.mem_iff.mp (by rw [hcons]; simp)
  · intro k hk
    rw [p2, hStart]
    exact sorted_headD_le hsorted (hperm.mem_iff.mpr hk)
  · rw [p3, hEnd]
    exact hperm.mem_iff.mp hlast_mem
  · intro k hk
    rw [p3, hEnd]
    exact sorted_le_getLastD hsorted (hperm.mem_iff.mpr hk)
  · rw [p5, p2, hOpen, hStart, hcons]
    simp
  · rw [p8, p3, hClose, hEnd]
  · rw [p6, p10]
    exact hHigh
  · rw [p7, p11]
    exact hLow
  · rw [p9]
    exact hVol
  · rw [p4, htd0, hdl]
  · rw [p12, p9, htd0, hdl]
  · rw [p1, hF, (dailyFold_const ts dates (dailyInit md dates, true)).1]
    simp [dailyInit]

theorem GetDailyRangeSummary_spec_witness :
    ∃ s, GetDailyRangeSummary (some ⟨exampleDailyMeta, exampleDailySeries⟩) = Except.ok s ∧
      (GetSortedDates (some ⟨exampleDailyMeta, exampleDailySeries⟩)).Pairwise strLe ∧
      (GetSortedDates (some ⟨exampleDailyMeta, exampleDailySeries⟩)).Perm
        (exampleDailySeries.map Prod.fst) ∧
      s.StartDate ∈ exampleDailySeries.map Prod.fst ∧
      (∀ k ∈ exampleDailySeries.map Prod.fst, strLe s.StartDate k) ∧
      s.EndDate ∈ exampleDailySeries.map Prod.fst ∧
      (∀ k ∈ exampleDailySeries.map Prod.fst, strLe k s.EndDate) ∧
      s.PeriodOpen = dayOpen exampleDailySeries s.StartDate ∧
      s.PeriodClose = dayClose exampleDailySeries s.EndDate ∧
      (s.PeriodHigh, s.HighDate) =
        specRunningMaxList ((GetSortedDates (some ⟨exampleDailyMeta, exampleDailySeries⟩)).map
          (fun d => (d, dayHigh exampleDailySeries d))) ∧
      (s.PeriodLow, s.LowDate) =
        specRunningMinList ((GetSortedDates (some ⟨exampleDailyMeta, exampleDailySeries⟩)).map
          (fun d => (d, dayLow exampleDailySeries d))) ∧
      s.TotalVolume = (exampleDailySeries.map (fun kp => (parseInt kp.2.Volume).getD 0)).sum ∧
      s.TradingDays = exampleDailySeries.length ∧
      s.AvgVolume = Int.tdiv s.TotalVolume (exampleDailySeries.length : Int) ∧
      s.Symbol = exampleDailyMeta.Symbol ∧
      GetDailyRangeSummary (some ⟨exampleDailyMeta, exampleDailySeries⟩) =
        Except.ok exampleDailyRangeSummary :=
  GetDailyRangeSummary_spec exampleDailyMeta exampleDailySeries (by decide) (by decide)

/-! Helper facts for FilterDailyLastNDays. -/

theorem filterMap_length_of_isSome {α β : Type} (f : α → Option β) :
    ∀ (l : List α), (∀ a ∈ l, (f a).isSome = true) → (l.filterMap f).length = l.length
  | [], _ => rfl
  | a :: t, h => by
      rcases hf : f a with _ | b
      · have h2 := h a (by simp)
        rw [hf] at h2
        simp at h2
      · rw [List.filterMap_cons_some hf]
        simp only [List.length_cons]
        rw [filterMap_length_of_isSome f t (fun x hx => h x (by simp [hx]))]

theorem mem_filterMap_lookup {α : Type} {ts : List (String × α)}
    (hnd : (ts.map Prod.fst).Nodup) (l : List String) (kp : String × α) :
    kp ∈ l.filterMap (fun date => (lookupKey ts date).map (fun p => (date, p))) ↔
      kp.1 ∈ l ∧ kp ∈ ts := by
  rw [List.mem_filterMap]
  constructor
  · rintro ⟨a, ha, hf⟩
    rcases hmap : lookupKey ts a with _ | v
    · rw [hmap] at hf
      simp at hf
    · rw [hmap] at hf
      have hav : (a, v) = kp := by simpa using hf
      subst hav
      exact ⟨ha, mem_of_lookupKey_eq_some hmap⟩
  · rintro ⟨h1, h2⟩
    refine ⟨kp.1, h1, ?_⟩
    rw [lookupKey_eq_some_of_mem hnd h2]
    simp

/-- C4: FilterDailyLastNDays returns nil on nil input, on a non-positive
count and on an empty series; with a count at least the series size it
returns all entries; with a smaller positive count it returns exactly that
many entries, all from the input, and every excluded entry's key is
strictly below every included entry's key (so exactly the chronologically
latest entries are kept). -/
theorem FilterDailyLastNDays_spec (md : TimeSeriesMetaData)
    (ts : List (String × DailyDataPoint)) (days : Int)
    (hnd : (ts.map Prod.fst).Nodup) :
    FilterDailyLastNDays none days = none ∧
    (days ≤ 0 → FilterDailyLastNDays (some ⟨md, ts⟩) days = none) ∧
    (ts = [] → FilterDailyLastNDays (some ⟨md, ts⟩) days = none) ∧
    (ts ≠ [] → (ts.length : Int) ≤ days →
      ∃ r, FilterDailyLastNDays (some ⟨md, ts⟩) days = some r ∧
        ∀ kp : String × DailyDataPoint, kp ∈ r.TimeSeries ↔ kp ∈ ts) ∧
    (0 < days → days < (ts.length : Int) →
      ∃ r, FilterDailyLastNDays (some ⟨md, ts⟩) days = some r ∧
        r.TimeSeries.length = days.toNat ∧
        (∀ kp : String × DailyDataPoint, kp ∈ r.TimeSeries → kp ∈ ts) ∧
        (∀ kp : String × DailyDataPoint, kp ∈ ts → kp ∉ r.TimeSeries →
          ∀ kq : String × DailyDataPoint, kq ∈ r.TimeSeries → strLtB kp.1 kq.1 = true)) := by
  have hdl : (GetSortedDates (some ⟨md, ts⟩)).length = ts.length := sortedDates_length md ts
  have hsorted := sortedDates_sorted md ts
  have hperm : (GetSortedDates (some ⟨md, ts⟩)).Perm (ts.map Prod.fst) := by
    simp only [GetSortedDates]
    exact List.perm_insertionSort strLe _
  set dates := GetSortedDates (some ⟨md, ts⟩) with hdates
  refine ⟨rfl, ?_, ?_, ?_, ?_⟩
  · intro h
    simp only [FilterDailyLastNDays, if_pos h]
  · intro h
    subst h
    simp [FilterDailyLastNDays, GetSortedDates]
  · intro hne hge
    have hlpos : 0 < ts.length := List.length_pos.mpr hne
    have hpos : ¬ (days ≤ 0) := by omega
    have hl0 : ¬ (dates.length = 0) := by omega
    simp only [FilterDailyLastNDays, if_neg hpos]
    rw [← hdates, if_neg hl0]
    have hcount : dates.length -
        (if days > (dates.length : Int) then (dates.length : Int) else days).toNat = 0 := by
      split_ifs with h <;> omega
    rw [hcount, List.drop_zero]
    refine ⟨_, rfl, ?_⟩
    intro kp
    rw [show (⟨md, dates.filterMap
          (fun date => (lookupKey ts date).map (fun p => (date, p)))⟩ :
        TimeSeriesDailyResponse).TimeSeries = dates.filterMap
          (fun date => (lookupKey ts date).map (fun p => (date, p))) from rfl]
    rw [mem_filterMap_lookup hnd]
    constructor
    · exact fun h => h.2
    · intro h
      refine ⟨?_, h⟩
      rw [hdates, sortedDates_mem md ts]
      exact List.mem_map_of_mem Prod.fst h
  · intro hpos hlt
    have hp0 : ¬ (days ≤ 0) := by omega
    have hl0 : ¬ (dates.length = 0) := by omega
    simp only [FilterDailyLastNDays, if_neg hp0]
    rw [← hdates, if_neg hl0]
    have hif : (if days > (dates.length : Int) then (dates.length : Int) else days) = days := by
      rw [if_neg]
      omega
    rw [hif]
    refine ⟨_, rfl, ?_, ?_, ?_⟩
    · rw [show (⟨md, (dates.drop (dates.length - days.toNat)).filterMap
            (fun date => (lookupKey ts date).map (fun p => (date, p)))⟩ :
          TimeSeriesDailyResponse).TimeSeries = (dates.drop (dates.length - days.toNat)).filterMap
            (fun date => (lookupKey ts date).map (fun p => (date, p))) from rfl]
      rw [filterMap_length_of_isSome _ _ ?hsome, List.length_drop]
      · omega
      case hsome =>
        intro a ha
        have hmem : a ∈ dates := List.mem_of_mem_drop ha
        have hkeys : a ∈ ts.map Prod.fst := by
          rw [hdates, sortedDates_mem md ts] at hmem
          exact hmem
        rcases hmap : lookupKey ts a with _ | v
        · have hs := lookupKey_isSome_of_mem hkeys
          rw [hmap] at hs
          simp at hs
        · rfl
    · intro kp hkp
      exact ((mem_filterMap_lookup hnd _ kp).mp hkp).2
    · intro kp hkp hnotin kq hkq
      obtain ⟨hkq1, _⟩ := (mem_filterMap_lookup hnd _ kq).mp hkq
      have hkp1 : kp.1 ∉ dates.drop (dates.length - days.toNat) := by
        intro hmem
        exact hnotin ((mem_filterMap_lookup hnd _ kp).mpr ⟨hmem, hkp⟩)
      have hkpdates : kp.1 ∈ dates := by
        rw [hdates, sortedDates_mem md ts]
        exact List.mem_map_of_mem Prod.fst hkp
      rw [← List.take_append_drop (dates.length - days.toNat) dates] at hkpdates
      have hkptake : kp.1 ∈ dates.take (dates.length - days.toNat) := by
        rcases List.mem_append.mp hkpdates with h | h
        · exact h
        · exact absurd h hkp1
      have hsorted2 : (dates.take (dates.length - days.toNat) ++
          dates.drop (dates.length - days.toNat)).Pairwise strLe := by
        rw [List.take_append_drop]
        exact hsorted
      have hle : strLe kp.1 kq.1 :=
        (List.pairwise_append.mp hsorted2).2.2 kp.1 hkptake kq.1 hkq1
      have hnodup : dates.Nodup := hperm.nodup_iff.mpr hnd
      have hnodup2 : (dates.take (dates.length - days.toNat) ++
          dates.drop (dates.length - days.toNat)).Nodup := by
        rw [List.take_append_drop]
        exact hnodup
      have hdisj := (List.nodup_append.mp hnodup2).2.2
      have hne2 : kp.1 ≠ kq.1 := fun he => hdisj hkptake (he ▸ hkq1)
      exact strLt_of_le_of_ne hle hne2

theorem FilterDailyLastNDays_spec_witness :
    ∃ r, FilterDailyLastNDays (some ⟨exampleDailyMeta, exampleDailySeries⟩) 1 = some r ∧
      r.TimeSeries.length = (1 : Int).toNat ∧
      (∀ kp : String × DailyDataPoint, kp ∈ r.TimeSeries → kp ∈ exampleDailySeries) ∧
      (∀ kp : String × DailyDataPoint, kp ∈ exampleDailySeries → kp ∉ r.TimeSeries →
        ∀ kq : String × DailyDataPoint, kq ∈ r.TimeSeries → strLtB kp.1 kq.1 = true) :=
  (FilterDailyLastNDays_spec exampleDailyMeta exampleDailySeries 1 (by decide)).2.2.2.2
    (by decide) (by decide)
